import Mathlib

/-!
Verification of the jira_extraction ETL pipeline (src/funcs/utils.py).

The development shallowly embeds the pipeline:
  * `reformat_date`   — date reformatting (utils.py lines 14-35), including a
    model of CPython `datetime.strptime` restricted to the format string
    `%Y-%m-%dT%H:%M:%S.%f%z` (exactly 4 year digits; 1-2 digit month, day,
    hour, minute, second fields; 1-6 fractional digits; an offset that is
    `Z` or sign + 2 hour digits + optional colon + minutes + optional
    consistent seconds/fraction; the literal `T` matches case-insensitively
    because CPython compiles the format regex with IGNORECASE).
  * `transform_pure` / `transform_extracted_data` — the transform stage
    (lines 218-254), the latter with explicit heap passing to capture the
    in-place column assignment of line 244.
  * `jiraExtraction` and its loops — the extraction stage (lines 39-214)
    over an abstract `search` function standing for the remote API.
  * `load_extraction` — the load stage (lines 258-307) over an explicit
    file-system state.
-/

/-- Cell values of the flattened table: Python strings, ints, lists of
strings (the Labels column), and null (None/NaN). -/
inductive Value where
  | str (s : String)
  | int (n : Int)
  | strList (l : List String)
  | null
  deriving DecidableEq

/-- A pandas DataFrame: ordered column labels plus rows of cells aligned
with the columns. -/
structure DataFrame where
  columns : List String
  rows : List (List Value)
  deriving DecidableEq

/-- Errors raised by the transform stage: the ValueError of utils.py line
241 (schema), the ValueError/TypeError raised by strptime inside
`reformat_date` (parse), and a modelling-artifact error for dereferencing
an absent heap slot (never reachable from Python). -/
inductive TError where
  | schema (col : String)
  | parse (msg : String)
  | badRef
  deriving DecidableEq

/-- Numeric value of a digit character. -/
def dval (c : Char) : Nat := c.toNat - 48

/-- Consume up to `n` further digit characters, accumulating their value. -/
def readDigits : Nat → Nat → List Char → (Nat × List Char)
  | 0, acc, cs => (acc, cs)
  | _ + 1, acc, [] => (acc, [])
  | n + 1, acc, c :: cs =>
      if c.isDigit then readDigits n (acc * 10 + dval c) cs else (acc, c :: cs)

/-- Consume between 1 and `maxD` digit characters (greedy), as the strptime
regex fragments `\d{1,2}` and `\d{1,6}` do. -/
def readNum (maxD : Nat) : List Char → Option (Nat × List Char)
  | [] => none
  | c :: cs => if c.isDigit then some (readDigits (maxD - 1) (dval c) cs) else none

/-- Consume exactly `n` digit characters (the strptime `%Y` fragment is
exactly `\d\d\d\d`). -/
def readNumExact : Nat → Nat → List Char → Option (Nat × List Char)
  | 0, acc, cs => some (acc, cs)
  | _ + 1, _, [] => none
  | n + 1, acc, c :: cs =>
      if c.isDigit then readNumExact n (acc * 10 + dval c) cs else none

/-- Consume one expected literal character. -/
def lit (ch : Char) : List Char → Option (List Char)
  | [] => none
  | c :: cs => if c = ch then some cs else none

/-- Gregorian leap-year test, as in Python's calendar arithmetic. -/
def isLeap (y : Nat) : Bool := y % 4 = 0 && (y % 100 ≠ 0 || y % 400 = 0)

/-- Days in a month, used by the datetime constructor's day validation. -/
def daysInMonth (y m : Nat) : Nat :=
  if m = 2 then (if isLeap y then 29 else 28)
  else if m = 4 || m = 6 || m = 9 || m = 11 then 30
  else 31

/-- The strptime `%d` fragment: `3[01]|[1-2]\d|0[1-9]|[1-9]| [1-9]` — one or
two digits, or a space followed by a nonzero digit. -/
def readDay : List Char → Option (Nat × List Char)
  | [] => none
  | c1 :: cs =>
      if c1 = ' ' then
        match cs with
        | [] => none
        | c2 :: cs2 => if c2.isDigit && c2 ≠ '0' then some (dval c2, cs2) else none
      else readNum 2 (c1 :: cs)

/-- Offset fractional part: a dot followed by 1 to 6 digits ends the string. -/
def zFrac : List Char → Bool
  | [] => true
  | c :: cs =>
      c = '.' && decide (1 ≤ cs.length) && decide (cs.length ≤ 6) && cs.all Char.isDigit

/-- Offset seconds digits `[0-5]\d`, then an optional fraction. -/
def zSecDigits : List Char → Bool
  | s1 :: s2 :: rest => s1.isDigit && decide (dval s1 ≤ 5) && s2.isDigit && zFrac rest
  | _ => false

/-- Optional offset seconds; CPython raises on inconsistent colon use, so a
colon before the seconds is accepted exactly when one separated the hours
and minutes. -/
def zSeconds (colon : Bool) : List Char → Bool
  | [] => true
  | c :: cs => if c = ':' then colon && zSecDigits cs else !colon && zSecDigits (c :: cs)

/-- Offset minutes `[0-5]\d` followed by optional seconds. -/
def zMin (colon : Bool) : List Char → Bool
  | m1 :: m2 :: rest =>
      m1.isDigit && decide (dval m1 ≤ 5) && m2.isDigit && zSeconds colon rest
  | _ => false

/-- The signed body of the strptime `%z` fragment
`[+-]\d\d:?[0-5]\d(:?[0-5]\d(\.\d{1,6})?)?`; the resulting offset must be
strictly less than 24 hours in magnitude for the timezone construction to
succeed, hence the hour bound. -/
def parseZBody : List Char → Bool
  | sgn :: h1 :: h2 :: rest =>
      (sgn = '+' || sgn = '-') && h1.isDigit && h2.isDigit &&
      decide (dval h1 * 10 + dval h2 ≤ 23) &&
      (match rest with
       | [] => false
       | c :: r2 => if c = ':' then zMin true r2 else zMin false (c :: r2))
  | _ => false

/-- The strptime `%z` fragment: a literal uppercase `Z` (case-sensitive in
the CPython regex) or a signed offset. -/
def parseZ (cs : List Char) : Bool := decide (cs = ['Z']) || parseZBody cs

/-- Date-time fields retained by the pipeline; the fractional second and
the offset are validated during parsing but never used by the output
format `%d/%m/%Y %H:%M:%S`. -/
structure DT where
  year : Nat
  month : Nat
  day : Nat
  hour : Nat
  minute : Nat
  second : Nat
  deriving DecidableEq

/-- The literal `T` of the format, matched case-insensitively because the
whole CPython format regex carries the IGNORECASE flag. -/
def litT : List Char → Option (List Char)
  | [] => none
  | c :: r => if c = 'T' || c = 't' then some r else none

/-- CPython `datetime.strptime(s, "%Y-%m-%dT%H:%M:%S.%f%z")` on the
character list of `s`: match each format fragment in sequence (the whole
input must be consumed), then apply the datetime constructor's range
checks. Returns `none` where Python raises ValueError. -/
def parseISO (cs0 : List Char) : Option DT := do
  let (y, cs) ← readNumExact 4 0 cs0
  let cs ← lit '-' cs
  let (mo, cs) ← readNum 2 cs
  let cs ← lit '-' cs
  let (d, cs) ← readDay cs
  let cs ← litT cs
  let (h, cs) ← readNum 2 cs
  let cs ← lit ':' cs
  let (mi, cs) ← readNum 2 cs
  let cs ← lit ':' cs
  let (s, cs) ← readNum 2 cs
  let cs ← lit '.' cs
  let (_f, cs) ← readNum 6 cs
  if parseZ cs && decide (1 ≤ y) && decide (1 ≤ mo) && decide (mo ≤ 12) &&
      decide (1 ≤ d) && decide (d ≤ daysInMonth y mo) && decide (h ≤ 23) &&
      decide (mi ≤ 59) && decide (s ≤ 59) then
    some ⟨y, mo, d, h, mi, s⟩
  else none

/-- strptime on a string. -/
def strptime6 (s : String) : Option DT := parseISO s.toList

/-- Zero-pad a natural number to two digits, as strftime `%d`, `%m`, `%H`,
`%M`, `%S` do. -/
def pad2 (n : Nat) : String := if n < 10 then "0" ++ toString n else toString n

/-- strftime `"%d/%m/%Y %H:%M:%S"` (glibc prints `%Y` without padding). -/
def strftimeOut (dt : DT) : String :=
  pad2 dt.day ++ "/" ++ pad2 dt.month ++ "/" ++ toString dt.year ++ " " ++
  pad2 dt.hour ++ ":" ++ pad2 dt.minute ++ ":" ++ pad2 dt.second

/-- utils.py lines 14-35: `reformat_date`. A null value or the literal
`N/A` passes through unchanged; any other string is parsed with strptime
and reformatted; a failed parse, or a non-string value, raises. -/
def reformat_date (v : Value) : Except TError Value :=
  match v with
  | .null => .ok .null
  | .str s =>
      if s = "N/A" then .ok (.str s)
      else
        match strptime6 s with
        | some dt => .ok (.str (strftimeOut dt))
        | none => .error (.parse s)
  | .int _ => .error (.parse "strptime argument must be str, not int")
  | .strList _ => .error (.parse "strptime argument must be str, not list")

/-- Modelled from the spec: a strict parser for the spec's description of
the source timestamp format, `YYYY-MM-DDTHH:MM:SS.ffffff±HHMM` — exactly
4-2-2 digit date, literal `T`, 2-2-2 digit time, a dot, exactly 6
fractional digits, a sign, and a 4-digit in-range offset, with all fields
denoting a valid timestamp. Used to compare the spec's format with the
behavior of the source parser `strptime6`. -/
def specFormatParse (s : String) : Option DT :=
  match s.toList with
  | [y1, y2, y3, y4, s1, m1, m2, s2, d1, d2, t1, g1, g2, c1, i1, i2, c2, e1, e2,
     dot, f1, f2, f3, f4, f5, f6, pm, z1, z2, z3, z4] =>
      if y1.isDigit = true ∧ y2.isDigit = true ∧ y3.isDigit = true ∧
         y4.isDigit = true ∧ s1 = '-' ∧ m1.isDigit = true ∧ m2.isDigit = true ∧
         s2 = '-' ∧ d1.isDigit = true ∧ d2.isDigit = true ∧ t1 = 'T' ∧
         g1.isDigit = true ∧ g2.isDigit = true ∧ c1 = ':' ∧ i1.isDigit = true ∧
         i2.isDigit = true ∧ c2 = ':' ∧ e1.isDigit = true ∧ e2.isDigit = true ∧
         dot = '.' ∧ f1.isDigit = true ∧ f2.isDigit = true ∧ f3.isDigit = true ∧
         f4.isDigit = true ∧ f5.isDigit = true ∧ f6.isDigit = true ∧
         (pm = '+' ∨ pm = '-') ∧ z1.isDigit = true ∧ z2.isDigit = true ∧
         z3.isDigit = true ∧ z4.isDigit = true ∧
         1 ≤ ((dval y1 * 10 + dval y2) * 10 + dval y3) * 10 + dval y4 ∧
         1 ≤ dval m1 * 10 + dval m2 ∧ dval m1 * 10 + dval m2 ≤ 12 ∧
         1 ≤ dval d1 * 10 + dval d2 ∧
         dval d1 * 10 + dval d2 ≤
           daysInMonth (((dval y1 * 10 + dval y2) * 10 + dval y3) * 10 + dval y4)
             (dval m1 * 10 + dval m2) ∧
         dval g1 * 10 + dval g2 ≤ 23 ∧ dval i1 * 10 + dval i2 ≤ 59 ∧
         dval e1 * 10 + dval e2 ≤ 59 ∧
         dval z1 * 10 + dval z2 ≤ 23 ∧ dval z3 ≤ 5 then
        some ⟨((dval y1 * 10 + dval y2) * 10 + dval y3) * 10 + dval y4,
              dval m1 * 10 + dval m2, dval d1 * 10 + dval d2,
              dval g1 * 10 + dval g2, dval i1 * 10 + dval i2,
              dval e1 * 10 + dval e2⟩
      else none
  | _ => none

/-- Rewrite the cells of one row that sit under a column named `c`,
stopping at the first `reformat_date` failure (as the underlying Series
`apply` does). -/
def applyRow (cols : List String) (c : String) : List Value → Except TError (List Value)
  | [] => .ok []
  | v :: vs =>
      match cols with
      | [] => .ok (v :: vs)
      | n :: cols2 =>
          if n = c then
            match reformat_date v with
            | .error e => .error e
            | .ok v2 => (applyRow cols2 c vs).map (fun t => v2 :: t)
          else (applyRow cols2 c vs).map (fun t => v :: t)

/-- Apply `applyRow` to every row of the table. -/
def rowsLoop (cols : List String) (c : String) : List (List Value) → Except TError (List (List Value))
  | [] => .ok []
  | r :: rs =>
      match applyRow cols c r with
      | .error e => .error e
      | .ok r2 => (rowsLoop cols c rs).map (fun t => r2 :: t)

/-- The column assignment `extracted_data[col] = extracted_data[col].apply(reformat_date)`
of utils.py line 244, as a value-level operation. -/
def applyColumn (df : DataFrame) (c : String) : Except TError DataFrame :=
  match rowsLoop df.columns c df.rows with
  | .error e => .error e
  | .ok rows2 => .ok { df with rows := rows2 }

/-- utils.py lines 236-246 as a pure function on table values: check that
both date columns exist (raising the line 241 ValueError otherwise), then
rewrite the two columns with `reformat_date`. -/
def transform_pure (df : DataFrame) : Except TError DataFrame :=
  if "Worklog Created" ∈ df.columns then
    if "Worklog Started" ∈ df.columns then
      match applyColumn df "Worklog Created" with
      | .error e => .error e
      | .ok df1 => applyColumn df1 "Worklog Started"
    else .error (.schema "Worklog Started")
  else .error (.schema "Worklog Created")

deriving instance DecidableEq for Except

/-- A heap of DataFrame objects; a Python reference is an index into it. -/
abbrev Heap : Type := List DataFrame

/-- utils.py lines 218-254: `transform_extracted_data` with Python object
semantics made explicit. The argument is a reference `r` into the heap;
each column assignment (line 244) mutates the referenced object in place,
and on success the function returns the same reference it was given.
The result pairs the final heap with the returned reference or the raised
error. -/
def transform_extracted_data (h : Heap) (r : Nat) : Heap × Except TError Nat :=
  match h.get? r with
  | none => (h, .error .badRef)
  | some df =>
      if "Worklog Created" ∈ df.columns then
        if "Worklog Started" ∈ df.columns then
          match applyColumn df "Worklog Created" with
          | .error e => (h, .error e)
          | .ok df1 =>
              match applyColumn df1 "Worklog Started" with
              | .error e => (h.set r df1, .error e)
              | .ok df2 => ((h.set r df1).set r df2, .ok r)
        else (h, .error (.schema "Worklog Started"))
      else (h, .error (.schema "Worklog Created"))

/-- One raw time-log entry as exposed by the remote API; `none` models an
absent attribute, in which case the `getattr` default of utils.py lines
123-128 applies. -/
structure RawWorklog where
  authorDisplayName : Option String
  comment : Option String
  created : Option String
  started : Option String
  timeSpent : Option String
  timeSpentSeconds : Option Int
  deriving DecidableEq

/-- One raw issue as exposed by the remote API, with `none` for nullable or
possibly-absent attributes used on utils.py lines 94-118. -/
structure RawIssue where
  key : String
  summary : String
  priorityName : Option String
  labels : List String
  assigneeDisplayName : Option String
  statusName : String
  creatorDisplayName : String
  cf10160 : Option String
  cf10163 : Option String
  cf10175 : Option String
  timespent : Option Int
  projectName : String
  createdTs : String
  updatedTs : String
  description : Option String
  cf10090 : Option String
  cf10089 : Option String
  cf10015 : Option String
  cf10152 : Option String
  parent : Option String
  worklogs : List RawWorklog
  deriving DecidableEq

/-- The issue-level fields of the `issue_info` dict (utils.py lines
94-116), after every sentinel fallback has been applied. -/
structure IssueInfo where
  issueKey : String
  summary : String
  priority : String
  labels : List String
  assignee : String
  status : String
  creator : String
  customField10160 : String
  customField10163 : String
  customField10175 : String
  timeSpent : Value
  project : String
  created : String
  updated : String
  description : String
  sprint : String
  emailSolicitante : String
  nomeSolicitante : String
  startDate : String
  endData : String
  parent : String
  deriving DecidableEq

/-- One flattened output record: the issue-level fields merged with one
worklog's fields (utils.py lines 121-139). -/
structure FlatRow where
  info : IssueInfo
  worklogAuthor : String
  worklogComment : String
  worklogCreated : String
  worklogStarted : String
  worklogTimeSpent : String
  worklogTimeSpentSeconds : Int
  deriving DecidableEq

/-- Build the `issue_info` dict (utils.py lines 94-116): `getattr`
fallbacks become `Option.getD`; `timespent` and `description` are guarded
by Python truthiness (0 and the empty string also fall back to their
sentinels). -/
def buildInfo (sprintName : String) (i : RawIssue) : IssueInfo :=
  { issueKey := i.key
    summary := i.summary
    priority := i.priorityName.getD "No Priority"
    labels := i.labels
    assignee := i.assigneeDisplayName.getD "Unassigned"
    status := i.statusName
    creator := i.creatorDisplayName
    customField10160 := i.cf10160.getD "N/A"
    customField10163 := i.cf10163.getD "N/A"
    customField10175 := i.cf10175.getD "N/A"
    timeSpent := match i.timespent with
      | some n => if n ≠ 0 then .int n else .str "No Time Spent"
      | none => .str "No Time Spent"
    project := i.projectName
    created := i.createdTs
    updated := i.updatedTs
    description := match i.description with
      | some s => if s ≠ "" then s else "No Description"
      | none => "No Description"
    sprint := sprintName
    emailSolicitante := i.cf10090.getD "N/A"
    nomeSolicitante := i.cf10089.getD "N/A"
    startDate := i.cf10015.getD "N/A"
    endData := i.cf10152.getD "N/A"
    parent := i.parent.getD "N/A" }

/-- The single sentinel row emitted for an issue without worklogs
(utils.py lines 131-139). -/
def noWorklogRow (info : IssueInfo) : FlatRow :=
  { info := info
    worklogAuthor := "No Worklog"
    worklogComment := "No Worklog"
    worklogCreated := "N/A"
    worklogStarted := "N/A"
    worklogTimeSpent := "N/A"
    worklogTimeSpentSeconds := 0 }

/-- Expand one issue into flat rows (utils.py lines 118-139): one row per
worklog if any exist, else exactly one sentinel row. -/
def expandIssue (info : IssueInfo) : List RawWorklog → List FlatRow
  | [] => [noWorklogRow info]
  | w :: ws =>
      (w :: ws).map fun wl =>
        { info := info
          worklogAuthor := wl.authorDisplayName.getD "No Author"
          worklogComment := wl.comment.getD "No Comment"
          worklogCreated := wl.created.getD "N/A"
          worklogStarted := wl.started.getD "N/A"
          worklogTimeSpent := wl.timeSpent.getD "N/A"
          worklogTimeSpentSeconds := wl.timeSpentSeconds.getD 0 }

/-- Process the issues of one API page in order (utils.py lines 93-139 and
identically lines 154-200). -/
def processPage (sprintName : String) (issues : List RawIssue) : List FlatRow :=
  issues.flatMap fun i => expandIssue (buildInfo sprintName i) i.worklogs

/-- The per-sprint JQL string of utils.py line 85: the project name is the
fixed literal, not the `project_key` parameter. -/
def sprintQuery (sprintId : Nat) : String :=
  "project = \x27Gestão de Atividades\x27 AND sprint = " ++ toString sprintId ++
  " ORDER BY created DESC"

/-- The sprint-less JQL string of utils.py line 147; again the fixed
project literal. -/
def sprintlessQuery : String :=
  "project = \x27Gestão de Atividades\x27 AND sprint is EMPTY ORDER BY created DESC"

/-- Run-time failures of the extraction stage that the embedding
distinguishes: the UnboundLocalError a read of a never-assigned local
raises, and exhaustion of the fuel that bounds the unboundedly-looping
`while True`. -/
inductive PyErr where
  | unboundLocal (v : String)
  | fuel
  deriving DecidableEq

/-- The pagination loop of utils.py lines 90-143 (and lines 151-204):
request a page, flatten its issues, advance the offset by `maxR`, and stop
once a page holds fewer than `maxR` issues. `search q startAt maxResults`
stands for `jira.search_issues`; `fuel` bounds the number of iterations of
the `while True`. -/
def sprintPages (search : String → Nat → Nat → List RawIssue) (q : String)
    (sprintName : String) (startAt maxR : Nat) : Nat → Except PyErr (List FlatRow)
  | 0 => .error .fuel
  | fuel + 1 =>
      let issues := search q startAt maxR
      let rows := processPage sprintName issues
      if issues.length < maxR then .ok rows
      else (sprintPages search q sprintName (startAt + maxR) maxR fuel).map
        (fun rest => rows ++ rest)

/-- The `for sprint_id, sprint_name in sprint_map.items()` loop of utils.py
lines 84-143, threading the accumulated rows and the `max_results` local
variable, which is assigned (to 100) only inside the loop body. -/
def sprintLoop (search : String → Nat → Nat → List RawIssue) (fuel : Nat) :
    List (Nat × String) → List FlatRow → Option Nat →
    Except PyErr (List FlatRow × Option Nat)
  | [], acc, mr => .ok (acc, mr)
  | (sid, sname) :: rest, acc, _ =>
      match sprintPages search (sprintQuery sid) sname 0 100 fuel with
      | .error e => .error e
      | .ok rows => sprintLoop search fuel rest (acc ++ rows) (some 100)

/-- utils.py lines 39-214: `jira_extraction` after a successful connection,
over an abstract `search` function. `projectKey` is the `project_key`
parameter — accepted but never read by the body. After the per-sprint
loop, line 152 reads `max_results`; if the loop body never ran the local
is unbound and the read raises. -/
def jiraExtraction (projectKey : String) (sprintMap : List (Nat × String))
    (search : String → Nat → Nat → List RawIssue) (fuel : Nat) :
    Except PyErr (List FlatRow) :=
  match sprintLoop search fuel sprintMap [] none with
  | .error e => .error e
  | .ok (_, none) => .error (.unboundLocal "max_results")
  | .ok (rows1, some mr) =>
      match sprintPages search sprintlessQuery "No Sprint" 0 mr fuel with
      | .error e => .error e
      | .ok rows2 => .ok (rows1 ++ rows2)

/-- The pagination loop again, counting the requests it issues instead of
collecting rows; structurally identical to `sprintPages`. -/
def pagesRequests (search : String → Nat → Nat → List RawIssue) (q : String)
    (startAt maxR : Nat) : Nat → Except PyErr Nat
  | 0 => .error .fuel
  | fuel + 1 =>
      let issues := search q startAt maxR
      if issues.length < maxR then .ok 1
      else (pagesRequests search q (startAt + maxR) maxR fuel).map (fun n => n + 1)

/-- A fixed raw issue used to populate the pages of the honest API model. -/
def dummyIssue : RawIssue :=
  { key := "K", summary := "S", priorityName := none, labels := [],
    assigneeDisplayName := none, statusName := "Done", creatorDisplayName := "C",
    cf10160 := none, cf10163 := none, cf10175 := none, timespent := none,
    projectName := "P", createdTs := "c", updatedTs := "u", description := none,
    cf10090 := none, cf10089 := none, cf10015 := none, cf10152 := none,
    parent := none, worklogs := [] }

/-- An API holding `total` issues overall that answers every page request
with `min maxResults (total - startAt)` issues, as the claim's page-by-page
model prescribes. -/
def honestSearch (total : Nat) : String → Nat → Nat → List RawIssue :=
  fun _ startAt maxR => List.replicate (min maxR (total - startAt)) dummyIssue

/-- File-system state: the set of existing directories (as component
lists) and the existing files with their contents. -/
structure FS where
  dirs : List (List String)
  files : List (List String × String)
  deriving DecidableEq

/-- os.path.exists: true for a directory or a file at the path. -/
def pathExists (fs : FS) (p : List String) : Bool :=
  decide (p ∈ fs.dirs) || fs.files.any (fun f => decide (f.1 = p))

/-- os.makedirs with exist_ok=True: record the directory and every
ancestor directory. -/
def makedirs (fs : FS) (p : List String) : FS :=
  { fs with dirs := fs.dirs ++ p.inits }

/-- Write or overwrite the file at path `p`. -/
def setFile (files : List (List String × String)) (p : List String) (content : String) :
    List (List String × String) :=
  if files.any (fun f => decide (f.1 = p)) then
    files.map (fun f => if f.1 = p then (p, content) else f)
  else files ++ [(p, content)]

/-- Content of the file at path `p`, if one exists. -/
def lookupFile : List (List String × String) → List String → Option String
  | [], _ => none
  | f :: rest, p => if f.1 = p then some f.2 else lookupFile rest p

/-- Python `str` of a list of strings, as rendered into a CSV cell. -/
def pyListRepr (l : List String) : String :=
  "[" ++ String.intercalate ", " (l.map (fun s => "\x27" ++ s ++ "\x27")) ++ "]"

/-- Quote a CSV field when it holds a comma, quote, or line break
(csv.QUOTE_MINIMAL), doubling embedded quotes. -/
def quoteIfNeeded (s : String) : String :=
  if s.contains ',' || s.contains '"' || s.contains '\n' || s.contains '\r' then
    "\"" ++ s.replace "\"" "\"\"" ++ "\""
  else s

/-- Render one cell for CSV output: null becomes the empty field. -/
def csvCell : Value → String
  | .str s => quoteIfNeeded s
  | .int n => toString n
  | .strList l => quoteIfNeeded (pyListRepr l)
  | .null => ""

/-- One CSV record: the cells joined by commas. -/
def csvLine (cells : List String) : String := String.intercalate "," cells

/-- pandas DataFrame.to_csv with index=False: the comma-joined header in
column order, then one record per row, each line ending in a newline, and
no index column. -/
def to_csv (df : DataFrame) : String :=
  csvLine (df.columns.map quoteIfNeeded) ++ "\n" ++
  String.join (df.rows.map (fun r => csvLine (r.map csvCell) ++ "\n"))

/-- utils.py lines 258-307: `load_extraction`. If the target path does not
exist, create it (with parents); then write the CSV serialization of the
table to `output_path/output_name`, overwriting any file there. -/
def load_extraction (transformed : DataFrame) (output_path : List String)
    (output_name : String) (fs : FS) : FS :=
  let fs1 := if pathExists fs output_path then fs else makedirs fs output_path
  { fs1 with files := setFile fs1.files (output_path ++ [output_name]) (to_csv transformed) }

lemma div100_succ (n : Nat) (h : 100 ≤ n) : n / 100 = (n - 100) / 100 + 1 := by
  have h2 : n - 100 + 100 = n := Nat.sub_add_cancel h
  calc n / 100 = (n - 100 + 100) / 100 := by rw [h2]
    _ = (n - 100) / 100 + 1 := Nat.add_div_right _ (by norm_num)

lemma pagesRequests_honest (total : Nat) (q : String) :
    ∀ (fuel startAt : Nat), (total - startAt) / 100 < fuel →
      pagesRequests (honestSearch total) q startAt 100 fuel =
        .ok ((total - startAt) / 100 + 1) := by
  intro fuel
  induction fuel with
  | zero => intro s h; omega
  | succ n ih =>
      intro s h
      rw [pagesRequests]
      simp only [honestSearch, List.length_replicate]
      by_cases hlt : min 100 (total - s) < 100
      · rw [if_pos hlt]
        have : total - s < 100 := by omega
        rw [Nat.div_eq_of_lt this]
      · rw [if_neg hlt]
        have h100 : 100 ≤ total - s := by omega
        have hsub : total - (s + 100) = total - s - 100 := by omega
        have hdiv : (total - s) / 100 = (total - s - 100) / 100 + 1 :=
          div100_succ _ h100
        have ihh : (total - (s + 100)) / 100 < n := by
          rw [hsub]; omega
        rw [ih (s + 100) ihh, hsub]
        simp [Except.map, hdiv]

/-- C5: if the board has no active or closed sprints, the per-sprint loop
body never runs, so the local `max_results` is never assigned and the
sprint-less query at utils.py line 152 raises UnboundLocalError instead of
returning the sprint-less rows. -/
theorem c5_empty_sprint_map_unbound_local (pk : String)
    (search : String → Nat → Nat → List RawIssue) (fuel : Nat) :
    jiraExtraction pk [] search fuel = .error (.unboundLocal "max_results") := rfl

/-- C3: the extraction ignores the supplied project key — the result is
identical for any two keys, because both JQL strings (utils.py lines 85
and 147) hard-code the literal project name instead of interpolating
`project_key`. -/
theorem c3_project_key_ignored :
    (∀ (pk1 pk2 : String) (sprintMap : List (Nat × String))
       (search : String → Nat → Nat → List RawIssue) (fuel : Nat),
       jiraExtraction pk1 sprintMap search fuel =
         jiraExtraction pk2 sprintMap search fuel) ∧
    sprintQuery 7 =
      "project = \x27Gestão de Atividades\x27 AND sprint = 7 ORDER BY created DESC" ∧
    sprintlessQuery =
      "project = \x27Gestão de Atividades\x27 AND sprint is EMPTY ORDER BY created DESC" :=
  ⟨fun _ _ _ _ _ => rfl, rfl, rfl⟩

/-- C2 (counterexample): with exactly `page_size = 100` issues the loop
issues 2 requests, not the claimed ⌈100/100⌉ = 1. -/
theorem c2_pagination_ceil_counterexample :
    pagesRequests (honestSearch 100) "q" 0 100 5 = .ok 2 ∧
    (100 + 100 - 1) / 100 = 1 ∧ (2 : Nat) ≠ 1 :=
  ⟨pagesRequests_honest 100 "q" 5 0 (by norm_num), by norm_num, by norm_num⟩

/-- C2 (amended): against an API holding `total` issues that answers each
page request with `min page_size (total - offset)` issues, the pagination
loop terminates after exactly `total / 100 + 1` requests — this is
⌈total/100⌉ except on multiples of 100; in particular 2 requests for
`total = 100` (the extra one returning zero rows) and 1 request for
`total = 0`. -/
theorem c2_pagination_request_count (total fuel : Nat) (q : String)
    (h : total / 100 < fuel) :
    pagesRequests (honestSearch total) q 0 100 fuel = .ok (total / 100 + 1) ∧
    pagesRequests (honestSearch 100) q 0 100 2 = .ok 2 ∧
    pagesRequests (honestSearch 0) q 0 100 1 = .ok 1 := by
  refine ⟨?_, ?_, ?_⟩
  · have := pagesRequests_honest total q fuel 0 (by simpa using h)
    simpa using this
  · exact pagesRequests_honest 100 q 2 0 (by norm_num)
  · exact pagesRequests_honest 0 q 1 0 (by norm_num)

/-- Witness for C2 at `total = 250`: three requests. -/
theorem c2_pagination_request_count_witness :
    pagesRequests (honestSearch 250) "jql" 0 100 10 = .ok 3 :=
  (c2_pagination_request_count 250 10 "jql" (by norm_num)).1

lemma expandIssue_length (info : IssueInfo) (wls : List RawWorklog) :
    (expandIssue info wls).length = max 1 wls.length := by
  cases wls with
  | nil => simp [expandIssue]
  | cons w ws => simp [expandIssue]

lemma expandIssue_info (info : IssueInfo) (wls : List RawWorklog) :
    ∀ r ∈ expandIssue info wls, r.info = info := by
  cases wls with
  | nil => simp [expandIssue, noWorklogRow]
  | cons w ws =>
      intro r hr
      simp only [expandIssue, List.mem_map] at hr
      obtain ⟨wl, _, rfl⟩ := hr
      rfl

lemma processPage_eq (sn : String) (issues : List RawIssue) :
    processPage sn issues =
      (issues.map (fun i => (sn, i))).flatMap
        (fun p => expandIssue (buildInfo p.1 p.2) p.2.worklogs) := by
  induction issues with
  | nil => rfl
  | cons i is ih => simp [processPage, List.flatMap_cons] at ih ⊢; rw [ih]

lemma flatRows_length (pairs : List (String × RawIssue)) :
    (pairs.flatMap (fun p => expandIssue (buildInfo p.1 p.2) p.2.worklogs)).length =
      (pairs.map (fun p => max 1 p.2.worklogs.length)).sum := by
  induction pairs with
  | nil => rfl
  | cons p ps ih => simp [List.flatMap_cons, expandIssue_length, ih]

lemma sprintPages_ok (search : String → Nat → Nat → List RawIssue) (q sn : String) :
    ∀ (fuel startAt maxR : Nat) (rows : List FlatRow),
      sprintPages search q sn startAt maxR fuel = .ok rows →
      ∃ issues : List RawIssue, rows = processPage sn issues := by
  intro fuel
  induction fuel with
  | zero => intro s m rows h; exact absurd h (by simp [sprintPages])
  | succ n ih =>
      intro s m rows h
      rw [sprintPages] at h
      by_cases hl : (search q s m).length < m
      · rw [if_pos hl] at h
        refine ⟨search q s m, ?_⟩
        injection h with h2
        exact h2.symm
      · rw [if_neg hl] at h
        cases hrec : sprintPages search q sn (s + m) m n with
        | error e => rw [hrec] at h; exact absurd h (by simp [Except.map])
        | ok rest =>
            rw [hrec] at h
            simp only [Except.map] at h
            injection h with h2
            obtain ⟨issues2, hi2⟩ := ih (s + m) m rest hrec
            refine ⟨search q s m ++ issues2, ?_⟩
            rw [← h2, hi2, processPage, processPage, processPage, List.flatMap_append]

lemma sprintLoop_ok (search : String → Nat → Nat → List RawIssue) (fuel : Nat) :
    ∀ (l : List (Nat × String)) (acc : List FlatRow) (mr0 : Option Nat)
      (rows : List FlatRow) (mrOut : Option Nat),
      sprintLoop search fuel l acc mr0 = .ok (rows, mrOut) →
      ∃ pairs : List (String × RawIssue),
        rows = acc ++ pairs.flatMap
          (fun p => expandIssue (buildInfo p.1 p.2) p.2.worklogs) := by
  intro l
  induction l with
  | nil =>
      intro acc mr0 rows mrOut h
      simp only [sprintLoop] at h
      injection h with h2
      have ha : acc = rows := congrArg Prod.fst h2
      refine ⟨[], ?_⟩
      simp [← ha]
  | cons hd tl ih =>
      obtain ⟨sid, sname⟩ := hd
      intro acc mr0 rows mrOut h
      rw [sprintLoop] at h
      cases hsp : sprintPages search (sprintQuery sid) sname 0 100 fuel with
      | error e => rw [hsp] at h; exact absurd h (by simp)
      | ok rows0 =>
          rw [hsp] at h
          obtain ⟨pairs, hp⟩ := ih (acc ++ rows0) (some 100) rows mrOut h
          obtain ⟨issues0, hi0⟩ := sprintPages_ok search (sprintQuery sid) sname fuel 0 100 rows0 hsp
          refine ⟨issues0.map (fun i => (sname, i)) ++ pairs, ?_⟩
          rw [hp, hi0, processPage_eq, List.flatMap_append, List.append_assoc]

/-- C1: on every successful run of the extractor, the rows are exactly the
concatenation of `expandIssue` over the processed (sprint label, issue)
pairs, so the row count is the sum over processed issues of
`max 1 (number of worklogs)`; each issue with worklogs contributes one row
per worklog, all sharing the same issue-level fields, and each issue
without worklogs contributes exactly the single `noWorklogRow`, whose
worklog fields are the sentinels
("No Worklog", "No Worklog", "N/A", "N/A", "N/A", 0). -/
theorem c1_extraction_row_count (pk : String) (sprintMap : List (Nat × String))
    (search : String → Nat → Nat → List RawIssue) (fuel : Nat)
    (rows : List FlatRow)
    (h : jiraExtraction pk sprintMap search fuel = .ok rows) :
    (∃ processed : List (String × RawIssue),
       rows = processed.flatMap
         (fun p => expandIssue (buildInfo p.1 p.2) p.2.worklogs) ∧
       rows.length = (processed.map (fun p => max 1 p.2.worklogs.length)).sum) ∧
    (∀ (info : IssueInfo) (wls : List RawWorklog),
       (expandIssue info wls).length = max 1 wls.length ∧
       (∀ r ∈ expandIssue info wls, r.info = info) ∧
       (wls = [] → expandIssue info wls = [noWorklogRow info])) := by
  constructor
  · rw [jiraExtraction] at h
    cases hsl : sprintLoop search fuel sprintMap [] none with
    | error e => rw [hsl] at h; exact absurd h (by simp)
    | ok pr =>
        obtain ⟨rows1, mrOpt⟩ := pr
        rw [hsl] at h
        cases mrOpt with
        | none => exact absurd h (by simp)
        | some mr =>
            dsimp only at h
            cases hsp : sprintPages search sprintlessQuery "No Sprint" 0 mr fuel with
            | error e => rw [hsp] at h; exact absurd h (by simp)
            | ok rows2 =>
                rw [hsp] at h
                injection h with h2
                obtain ⟨pairs1, hp1⟩ := sprintLoop_ok search fuel sprintMap [] none rows1 (some mr) hsl
                obtain ⟨issues2, hi2⟩ :=
                  sprintPages_ok search sprintlessQuery "No Sprint" fuel 0 mr rows2 hsp
                refine ⟨pairs1 ++ issues2.map (fun i => ("No Sprint", i)), ?_, ?_⟩
                · rw [← h2, hp1, hi2, processPage_eq, List.flatMap_append]
                  simp
                · rw [← h2, hp1, hi2, processPage_eq]
                  simp only [List.nil_append]
                  rw [← List.flatMap_append, flatRows_length]
  · intro info wls
    refine ⟨expandIssue_length info wls, expandIssue_info info wls, ?_⟩
    intro he
    subst he
    rfl

/-- A concrete two-column table whose first date cell is parseable. -/
def cex4DF : DataFrame :=
  { columns := ["Worklog Created", "Worklog Started"],
    rows := [[.str "2024-03-05T14:30:00.000000+0000", .str "N/A"]] }

/-- The same table after the date columns have been rewritten. -/
def cex4DF2 : DataFrame :=
  { columns := ["Worklog Created", "Worklog Started"],
    rows := [[.str "05/03/2024 14:30:00", .str "N/A"]] }

/-- C4 (counterexample): on a one-table heap the transform returns the very
reference it was given — not a new collection — and the input slot no
longer holds its original value: the input collection is mutated. -/
theorem c4_new_collection_counterexample :
    (transform_extracted_data [cex4DF] 0).2 = .ok 0 ∧
    (transform_extracted_data [cex4DF] 0).1 ≠ [cex4DF] := by
  refine ⟨by decide, by decide⟩

/-- C4 (amended): `transform_extracted_data` rewrites the two date columns
in place — when the input reference holds `df` and the pure column rewrite
yields `df2`, the call mutates the referenced slot to `df2` and returns
the input reference itself. -/
theorem c4_inplace_mutation (h : Heap) (r : Nat) (df df2 : DataFrame)
    (h1 : h.get? r = some df) (h2 : transform_pure df = .ok df2) :
    transform_extracted_data h r = (h.set r df2, .ok r) := by
  rw [transform_pure] at h2
  by_cases hc : "Worklog Created" ∈ df.columns
  · rw [if_pos hc] at h2
    by_cases hs : "Worklog Started" ∈ df.columns
    · rw [if_pos hs] at h2
      cases hac : applyColumn df "Worklog Created" with
      | error e => rw [hac] at h2; exact absurd h2 (by simp)
      | ok df1 =>
          rw [hac] at h2
          dsimp only at h2
          rw [transform_extracted_data]
          simp only [h1]
          rw [if_pos hc, if_pos hs, hac]
          dsimp only
          rw [h2]
          dsimp only
          rw [List.set_set]
    · rw [if_neg hs] at h2; exact absurd h2 (by simp)
  · rw [if_neg hc] at h2; exact absurd h2 (by simp)

/-- Witness for C4's amended statement on the concrete table. -/
theorem c4_inplace_mutation_witness :
    transform_extracted_data [cex4DF] 0 = ([cex4DF2], .ok 0) :=
  c4_inplace_mutation [cex4DF] 0 cex4DF cex4DF2 (by decide) (by decide)

/-- A worklog with all attributes present. -/
def sampleWorklog1 : RawWorklog :=
  { authorDisplayName := some "Ana", comment := some "done",
    created := some "2024-03-05T14:30:00.000000+0000",
    started := some "2024-03-05T14:00:00.000000+0000",
    timeSpent := some "1h", timeSpentSeconds := some 3600 }

/-- A worklog with every optional attribute absent. -/
def sampleWorklog2 : RawWorklog :=
  { authorDisplayName := none, comment := none, created := none,
    started := none, timeSpent := none, timeSpentSeconds := none }

/-- An issue with two worklogs. -/
def sampleIssue : RawIssue :=
  { dummyIssue with key := "GA-1", worklogs := [sampleWorklog1, sampleWorklog2] }

/-- A one-page API: the sample issue on the first page, nothing after. -/
def sampleSearch : String → Nat → Nat → List RawIssue :=
  fun _ startAt _ => if startAt = 0 then [sampleIssue] else []

/-- The rows the sample run produces. -/
def sampleRows : List FlatRow :=
  (jiraExtraction "GA" [(1, "Sprint 1")] sampleSearch 1).toOption.getD []

/-- Witness for C1 on the sample run (one sprint, the issue seen in the
sprint and again in the sprint-less bucket, two worklogs each time). -/
theorem c1_extraction_row_count_witness :
    (∃ processed : List (String × RawIssue),
       sampleRows = processed.flatMap
         (fun p => expandIssue (buildInfo p.1 p.2) p.2.worklogs) ∧
       sampleRows.length = (processed.map (fun p => max 1 p.2.worklogs.length)).sum) ∧
    (∀ (info : IssueInfo) (wls : List RawWorklog),
       (expandIssue info wls).length = max 1 wls.length ∧
       (∀ r ∈ expandIssue info wls, r.info = info) ∧
       (wls = [] → expandIssue info wls = [noWorklogRow info])) :=
  c1_extraction_row_count "GA" [(1, "Sprint 1")] sampleSearch 1 sampleRows (by decide)

lemma except_map_ok {ε α β : Type} (f : α → β) (x : Except ε α) (b : β)
    (h : x.map f = .ok b) : ∃ a, x = .ok a ∧ b = f a := by
  cases x with
  | error e => simp [Except.map] at h
  | ok a =>
      refine ⟨a, rfl, ?_⟩
      simp only [Except.map] at h
      injection h with h2
      exact h2.symm

lemma applyRow_length (c : String) :
    ∀ (r : List Value) (cols : List String) (r2 : List Value),
      applyRow cols c r = .ok r2 → r2.length = r.length := by
  intro r
  induction r with
  | nil =>
      intro cols r2 h
      simp only [applyRow] at h
      injection h with h2
      rw [← h2]
  | cons v vs ih =>
      intro cols r2 h
      rw [applyRow.eq_def] at h
      dsimp only at h
      cases cols with
      | nil => injection h with h2; rw [← h2]
      | cons n cols2 =>
          dsimp only at h
          by_cases hn : n = c
          · rw [if_pos hn] at h
            cases hrf : reformat_date v with
            | error e => rw [hrf] at h; exact absurd h (by simp)
            | ok v2 =>
                rw [hrf] at h
                dsimp only at h
                obtain ⟨t, ht, rfl⟩ := except_map_ok _ _ _ h
                simp [ih cols2 t ht]
          · rw [if_neg hn] at h
            obtain ⟨t, ht, rfl⟩ := except_map_ok _ _ _ h
            simp [ih cols2 t ht]

lemma applyRow_get (c : String) :
    ∀ (r : List Value) (cols : List String) (r2 : List Value),
      applyRow cols c r = .ok r2 →
      ∀ j, cols.get? j ≠ some c → r2.get? j = r.get? j := by
  intro r
  induction r with
  | nil =>
      intro cols r2 h j _
      simp only [applyRow] at h
      injection h with h2
      rw [← h2]
  | cons v vs ih =>
      intro cols r2 h j hj
      rw [applyRow.eq_def] at h
      dsimp only at h
      cases cols with
      | nil => injection h with h2; rw [← h2]
      | cons n cols2 =>
          dsimp only at h
          by_cases hn : n = c
          · rw [if_pos hn] at h
            cases hrf : reformat_date v with
            | error e => rw [hrf] at h; exact absurd h (by simp)
            | ok v2 =>
                rw [hrf] at h
                dsimp only at h
                obtain ⟨t, ht, rfl⟩ := except_map_ok _ _ _ h
                cases j with
                | zero => exact absurd (by rw [hn]; rfl) hj
                | succ j2 => exact ih cols2 t ht j2 (by simpa using hj)
          · rw [if_neg hn] at h
            obtain ⟨t, ht, rfl⟩ := except_map_ok _ _ _ h
            cases j with
            | zero => rfl
            | succ j2 => exact ih cols2 t ht j2 (by simpa using hj)

lemma rowsLoop_ok (cols : List String) (c : String) :
    ∀ (rs rs2 : List (List Value)), rowsLoop cols c rs = .ok rs2 →
      rs2.length = rs.length ∧
      ∀ i r, rs.get? i = some r →
        ∃ r2, rs2.get? i = some r2 ∧ applyRow cols c r = .ok r2 := by
  intro rs
  induction rs with
  | nil =>
      intro rs2 h
      simp only [rowsLoop] at h
      injection h with h2
      rw [← h2]
      exact ⟨rfl, by intro i r hir; simp at hir⟩
  | cons r0 rest ih =>
      intro rs2 h
      rw [rowsLoop] at h
      cases har : applyRow cols c r0 with
      | error e => rw [har] at h; exact absurd h (by simp)
      | ok r02 =>
          rw [har] at h
          dsimp only at h
          obtain ⟨t, ht, rfl⟩ := except_map_ok _ _ _ h
          obtain ⟨hlen, hpt⟩ := ih t ht
          refine ⟨by simp [hlen], ?_⟩
          intro i r hir
          cases i with
          | zero =>
              injection hir with hir2
              exact ⟨r02, rfl, hir2 ▸ har⟩
          | succ i2 => exact hpt i2 r hir

lemma applyColumn_ok (df df2 : DataFrame) (c : String)
    (h : applyColumn df c = .ok df2) :
    df2.columns = df.columns ∧ rowsLoop df.columns c df.rows = .ok df2.rows := by
  rw [applyColumn] at h
  cases hr : rowsLoop df.columns c df.rows with
  | error e => rw [hr] at h; exact absurd h (by simp)
  | ok rows2 =>
      rw [hr] at h
      injection h with h2
      rw [← h2]
      exact ⟨rfl, rfl⟩

lemma transform_pure_ok (df df2 : DataFrame) (h : transform_pure df = .ok df2) :
    ∃ df1, applyColumn df "Worklog Created" = .ok df1 ∧
      applyColumn df1 "Worklog Started" = .ok df2 := by
  rw [transform_pure] at h
  by_cases hc : "Worklog Created" ∈ df.columns
  · rw [if_pos hc] at h
    by_cases hs : "Worklog Started" ∈ df.columns
    · rw [if_pos hs] at h
      cases hac : applyColumn df "Worklog Created" with
      | error e => rw [hac] at h; exact absurd h (by simp)
      | ok df1 =>
          rw [hac] at h
          exact ⟨df1, rfl, h⟩
    · rw [if_neg hs] at h; exact absurd h (by simp)
  · rw [if_neg hc] at h; exact absurd h (by simp)

/-- C7: a successful transform preserves the column labels, the row count,
and every cell that does not sit under "Worklog Created" or
"Worklog Started" — in particular the issue-level "Created" and "Updated"
columns are left in source format. -/
theorem c7_non_date_fields_preserved (df df2 : DataFrame)
    (h : transform_pure df = .ok df2) :
    df2.columns = df.columns ∧ df2.rows.length = df.rows.length ∧
    (∀ i j, df.columns.get? j ≠ some "Worklog Created" →
            df.columns.get? j ≠ some "Worklog Started" →
            (df2.rows.get? i).bind (fun r => r.get? j) =
              (df.rows.get? i).bind (fun r => r.get? j)) ∧
    (∀ i j, df.columns.get? j = some "Created" ∨ df.columns.get? j = some "Updated" →
            (df2.rows.get? i).bind (fun r => r.get? j) =
              (df.rows.get? i).bind (fun r => r.get? j)) := by
  obtain ⟨df1, hac, has⟩ := transform_pure_ok df df2 h
  obtain ⟨hcol1, hrl1⟩ := applyColumn_ok df df1 "Worklog Created" hac
  obtain ⟨hcol2, hrl2⟩ := applyColumn_ok df1 df2 "Worklog Started" has
  obtain ⟨hlen1, hpt1⟩ := rowsLoop_ok df.columns "Worklog Created" df.rows df1.rows hrl1
  obtain ⟨hlen2, hpt2⟩ := rowsLoop_ok df1.columns "Worklog Started" df1.rows df2.rows hrl2
  have hcols : df2.columns = df.columns := hcol2.trans hcol1
  have hlens : df2.rows.length = df.rows.length := hlen2.trans hlen1
  have hmain : ∀ i j, df.columns.get? j ≠ some "Worklog Created" →
      df.columns.get? j ≠ some "Worklog Started" →
      (df2.rows.get? i).bind (fun r => r.get? j) =
        (df.rows.get? i).bind (fun r => r.get? j) := by
    intro i j hjc hjs
    cases hir : df.rows.get? i with
    | none =>
        have h0 : df.rows.length ≤ i := List.get?_eq_none.mp hir
        have h2 : df2.rows.get? i = none := List.get?_eq_none.mpr (by omega)
        rw [h2]
    | some r =>
        obtain ⟨r1, hir1, har1⟩ := hpt1 i r hir
        obtain ⟨r2, hir2, har2⟩ := hpt2 i r1 hir1
        have e2 : r2.get? j = r1.get? j :=
          applyRow_get "Worklog Started" r1 df1.columns r2 har2 j (by rw [hcol1]; exact hjs)
        have e1 : r1.get? j = r.get? j :=
          applyRow_get "Worklog Created" r df.columns r1 har1 j hjc
        rw [hir2]
        simp only [Option.some_bind]
        rw [e2, e1]
  refine ⟨hcols, hlens, hmain, ?_⟩
  intro i j hj
  cases hj with
  | inl hj2 => exact hmain i j (by rw [hj2]; decide) (by rw [hj2]; decide)
  | inr hj2 => exact hmain i j (by rw [hj2]; decide) (by rw [hj2]; decide)

lemma reformat_date_err (v : Value) (e : TError) (h : reformat_date v = .error e) :
    ∃ s, e = .parse s := by
  cases v with
  | null => simp [reformat_date] at h
  | str s =>
      rw [reformat_date] at h
      by_cases hna : s = "N/A"
      · rw [if_pos hna] at h; exact absurd h (by simp)
      · rw [if_neg hna] at h
        cases hp : strptime6 s with
        | some dt => rw [hp] at h; exact absurd h (by simp)
        | none => rw [hp] at h; injection h with h2; exact ⟨s, h2.symm⟩
  | int n => rw [reformat_date] at h; injection h with h2; exact ⟨_, h2.symm⟩
  | strList l => rw [reformat_date] at h; injection h with h2; exact ⟨_, h2.symm⟩

lemma applyRow_err (c : String) :
    ∀ (r : List Value) (cols : List String) (e : TError),
      applyRow cols c r = .error e → ∃ s, e = .parse s := by
  intro r
  induction r with
  | nil => intro cols e h; simp [applyRow] at h
  | cons v vs ih =>
      intro cols e h
      rw [applyRow.eq_def] at h
      dsimp only at h
      cases cols with
      | nil => exact absurd h (by simp)
      | cons n cols2 =>
          dsimp only at h
          by_cases hn : n = c
          · rw [if_pos hn] at h
            cases hrf : reformat_date v with
            | error e2 =>
                rw [hrf] at h
                injection h with h2
                exact h2 ▸ reformat_date_err v e2 hrf
            | ok v2 =>
                rw [hrf] at h
                dsimp only at h
                cases hrec : applyRow cols2 c vs with
                | error e2 =>
                    rw [hrec] at h
                    simp only [Except.map] at h
                    injection h with h2
                    exact h2 ▸ ih cols2 e2 hrec
                | ok t => rw [hrec] at h; exact absurd h (by simp [Except.map])
          · rw [if_neg hn] at h
            cases hrec : applyRow cols2 c vs with
            | error e2 =>
                rw [hrec] at h
                simp only [Except.map] at h
                injection h with h2
                exact h2 ▸ ih cols2 e2 hrec
            | ok t => rw [hrec] at h; exact absurd h (by simp [Except.map])

lemma rowsLoop_err (cols : List String) (c : String) :
    ∀ (rs : List (List Value)) (e : TError),
      rowsLoop cols c rs = .error e → ∃ s, e = .parse s := by
  intro rs
  induction rs with
  | nil => intro e h; simp [rowsLoop] at h
  | cons r0 rest ih =>
      intro e h
      rw [rowsLoop] at h
      cases har : applyRow cols c r0 with
      | error e2 =>
          rw [har] at h
          injection h with h2
          exact h2 ▸ applyRow_err c r0 cols e2 har
      | ok r02 =>
          rw [har] at h
          dsimp only at h
          cases hrec : rowsLoop cols c rest with
          | error e2 =>
              rw [hrec] at h
              simp only [Except.map] at h
              injection h with h2
              exact h2 ▸ ih e2 hrec
          | ok t => rw [hrec] at h; exact absurd h (by simp [Except.map])

lemma applyColumn_err (df : DataFrame) (c : String) (e : TError)
    (h : applyColumn df c = .error e) : ∃ s, e = .parse s := by
  rw [applyColumn] at h
  cases hr : rowsLoop df.columns c df.rows with
  | error e2 =>
      rw [hr] at h
      injection h with h2
      exact h2 ▸ rowsLoop_err df.columns c df.rows e2 hr
  | ok rows2 => rw [hr] at h; exact absurd h (by simp)

/-- C8: `transform_extracted_data` raises a schema error exactly when one
of the two date columns is missing from the table's shape, and in that
case the heap — hence the input collection — is untouched. -/
theorem c8_schema_error_iff_missing_column (h : Heap) (r : Nat) (df : DataFrame)
    (h1 : h.get? r = some df) :
    ((∃ col, (transform_extracted_data h r).2 = .error (.schema col)) ↔
      ("Worklog Created" ∉ df.columns ∨ "Worklog Started" ∉ df.columns)) ∧
    ((∃ col, (transform_extracted_data h r).2 = .error (.schema col)) →
      (transform_extracted_data h r).1 = h) := by
  rw [transform_extracted_data]
  simp only [h1]
  by_cases hc : "Worklog Created" ∈ df.columns
  · rw [if_pos hc]
    by_cases hs : "Worklog Started" ∈ df.columns
    · rw [if_pos hs]
      cases hac : applyColumn df "Worklog Created" with
      | error e =>
          dsimp only
          obtain ⟨s, rfl⟩ := applyColumn_err df "Worklog Created" e hac
          constructor
          · constructor
            · rintro ⟨col, hcol⟩
              exact absurd hcol (by simp)
            · intro hor
              cases hor with
              | inl h2 => exact absurd hc h2
              | inr h2 => exact absurd hs h2
          · intro _; rfl
      | ok df1 =>
          cases has : applyColumn df1 "Worklog Started" with
          | error e =>
              dsimp only
              rw [has]
              dsimp only
              obtain ⟨s, rfl⟩ := applyColumn_err df1 "Worklog Started" e has
              constructor
              · constructor
                · rintro ⟨col, hcol⟩
                  exact absurd hcol (by simp)
                · intro hor
                  cases hor with
                  | inl h2 => exact absurd hc h2
                  | inr h2 => exact absurd hs h2
              · rintro ⟨col, hcol⟩
                exact absurd hcol (by simp)
          | ok df2 =>
              dsimp only
              rw [has]
              dsimp only
              constructor
              · constructor
                · rintro ⟨col, hcol⟩
                  exact absurd hcol (by simp)
                · intro hor
                  cases hor with
                  | inl h2 => exact absurd hc h2
                  | inr h2 => exact absurd hs h2
              · rintro ⟨col, hcol⟩
                exact absurd hcol (by simp)
    · rw [if_neg hs]
      dsimp only
      refine ⟨⟨fun _ => Or.inr hs, fun _ => ⟨"Worklog Started", rfl⟩⟩, fun _ => rfl⟩
  · rw [if_neg hc]
    dsimp only
    refine ⟨⟨fun _ => Or.inl hc, fun _ => ⟨"Worklog Created", rfl⟩⟩, fun _ => rfl⟩

/-- Witness for C8: a one-column table missing "Worklog Started". -/
theorem c8_schema_error_iff_missing_column_witness :
    ((∃ col, (transform_extracted_data
        [{ columns := ["Worklog Created"], rows := [] }] 0).2 =
          .error (.schema col)) ↔
      ("Worklog Created" ∉ (({ columns := ["Worklog Created"], rows := [] } : DataFrame)).columns ∨
       "Worklog Started" ∉ (({ columns := ["Worklog Created"], rows := [] } : DataFrame)).columns)) ∧
    ((∃ col, (transform_extracted_data
        [{ columns := ["Worklog Created"], rows := [] }] 0).2 =
          .error (.schema col)) →
      (transform_extracted_data [{ columns := ["Worklog Created"], rows := [] }] 0).1 =
        [{ columns := ["Worklog Created"], rows := [] }]) :=
  c8_schema_error_iff_missing_column
    [{ columns := ["Worklog Created"], rows := [] }] 0
    { columns := ["Worklog Created"], rows := [] } (by decide)

lemma applyRow_sentinel (c : String) :
    ∀ (r : List Value) (cols : List String),
      (∀ p ∈ cols.zip r, p.1 = c → p.2 = Value.str "N/A") →
      applyRow cols c r = .ok r := by
  intro r
  induction r with
  | nil => intro cols hp; simp [applyRow]
  | cons v vs ih =>
      intro cols hp
      rw [applyRow.eq_def]
      dsimp only
      cases cols with
      | nil => rfl
      | cons n cols2 =>
          dsimp only
          have hrec : applyRow cols2 c vs = .ok vs :=
            ih cols2 (fun p hp2 hc2 => hp p (by simp [List.zip_cons_cons, hp2]) hc2)
          by_cases hn : n = c
          · rw [if_pos hn]
            have hv : v = Value.str "N/A" :=
              hp (n, v) (by simp [List.zip_cons_cons]) hn
            rw [hv]
            have hrf : reformat_date (Value.str "N/A") = .ok (Value.str "N/A") := rfl
            rw [hrf]
            dsimp only
            rw [hrec]
            rfl
          · rw [if_neg hn, hrec]
            rfl

lemma rowsLoop_sentinel (cols : List String) (c : String) :
    ∀ (rs : List (List Value)),
      (∀ r ∈ rs, ∀ p ∈ cols.zip r, p.1 = c → p.2 = Value.str "N/A") →
      rowsLoop cols c rs = .ok rs := by
  intro rs
  induction rs with
  | nil => intro hp; rfl
  | cons r0 rest ih =>
      intro hp
      rw [rowsLoop]
      rw [applyRow_sentinel c r0 cols (fun p hp2 hc2 => hp r0 (by simp) p hp2 hc2)]
      dsimp only
      rw [ih (fun r hr p hp2 hc2 => hp r (by simp [hr]) p hp2 hc2)]
      rfl

lemma applyColumn_sentinel (df : DataFrame) (c : String)
    (hp : ∀ r ∈ df.rows, ∀ p ∈ df.columns.zip r, p.1 = c → p.2 = Value.str "N/A") :
    applyColumn df c = .ok df := by
  rw [applyColumn, rowsLoop_sentinel df.columns c df.rows hp]

/-- C9: on a table whose "Worklog Created" and "Worklog Started" cells all
hold the sentinel "N/A", the transform is the identity, so applying it
twice equals applying it once. -/
theorem c9_sentinel_idempotent (df : DataFrame)
    (hc : "Worklog Created" ∈ df.columns) (hs : "Worklog Started" ∈ df.columns)
    (hsent : ∀ r ∈ df.rows, ∀ p ∈ df.columns.zip r,
      (p.1 = "Worklog Created" ∨ p.1 = "Worklog Started") → p.2 = Value.str "N/A") :
    transform_pure df = .ok df ∧
    (transform_pure df).bind transform_pure = transform_pure df := by
  have h1 : transform_pure df = .ok df := by
    rw [transform_pure, if_pos hc, if_pos hs]
    rw [applyColumn_sentinel df "Worklog Created"
      (fun r hr p hp2 hc2 => hsent r hr p hp2 (Or.inl hc2))]
    dsimp only
    exact applyColumn_sentinel df "Worklog Started"
      (fun r hr p hp2 hc2 => hsent r hr p hp2 (Or.inr hc2))
  refine ⟨h1, ?_⟩
  rw [h1]
  exact h1

/-- A sentinel-only table used to witness C9. -/
def c9df : DataFrame :=
  { columns := ["Issue Key", "Worklog Created", "Worklog Started"],
    rows := [[.str "GA-1", .str "N/A", .str "N/A"],
             [.str "GA-2", .str "N/A", .str "N/A"]] }

/-- Witness for C9 on the sentinel-only table. -/
theorem c9_sentinel_idempotent_witness :
    transform_pure c9df = .ok c9df ∧
    (transform_pure c9df).bind transform_pure = transform_pure c9df :=
  c9_sentinel_idempotent c9df (by decide) (by decide) (by decide)

/-- A table with issue-level date columns next to the worklog date
columns, used to witness C7. -/
def c7df : DataFrame :=
  { columns := ["Issue Key", "Created", "Updated", "Worklog Created", "Worklog Started"],
    rows := [[.str "GA-1", .str "2024-01-02T03:04:05.000000+0000",
              .str "2024-01-03T03:04:05.000000+0000", .str "N/A",
              .str "2024-03-05T14:30:00.000000+0000"]] }

/-- The transformed table for the C7 witness. -/
def c7df2 : DataFrame := (transform_pure c7df).toOption.getD ⟨[], []⟩

/-- Witness for C7 on the concrete table. -/
theorem c7_non_date_fields_preserved_witness :
    c7df2.columns = c7df.columns ∧ c7df2.rows.length = c7df.rows.length ∧
    (∀ i j, c7df.columns.get? j ≠ some "Worklog Created" →
            c7df.columns.get? j ≠ some "Worklog Started" →
            (c7df2.rows.get? i).bind (fun r => r.get? j) =
              (c7df.rows.get? i).bind (fun r => r.get? j)) ∧
    (∀ i j, c7df.columns.get? j = some "Created" ∨ c7df.columns.get? j = some "Updated" →
            (c7df2.rows.get? i).bind (fun r => r.get? j) =
              (c7df.rows.get? i).bind (fun r => r.get? j)) :=
  c7_non_date_fields_preserved c7df c7df2 (by decide)

lemma lookupFile_replace (p : List String) (c : String) :
    ∀ files : List (List String × String),
      files.any (fun f => decide (f.1 = p)) = true →
      lookupFile (files.map (fun f => if f.1 = p then (p, c) else f)) p = some c := by
  intro files
  induction files with
  | nil => intro ha; simp at ha
  | cons f rest ih =>
      intro ha
      rw [List.map_cons, lookupFile]
      by_cases hf : f.1 = p
      · rw [if_pos hf]
        simp
      · rw [if_neg hf]
        rw [if_neg hf]
        refine ih ?_
        simp only [List.any_cons, Bool.or_eq_true, decide_eq_true_eq] at ha
        rcases ha with ha1 | ha2
        · exact absurd ha1 hf
        · exact ha2

lemma lookupFile_append_nomatch (p : List String) (l2 : List (List String × String)) :
    ∀ files : List (List String × String),
      (∀ f ∈ files, f.1 ≠ p) →
      lookupFile (files ++ l2) p = lookupFile l2 p := by
  intro files
  induction files with
  | nil => intro _; rfl
  | cons f rest ih =>
      intro hf
      rw [List.cons_append, lookupFile]
      rw [if_neg (hf f (by simp))]
      exact ih (fun g hg => hf g (by simp [hg]))

lemma lookupFile_setFile (files : List (List String × String)) (p : List String)
    (c : String) : lookupFile (setFile files p c) p = some c := by
  rw [setFile]
  by_cases ha : files.any (fun f => decide (f.1 = p)) = true
  · rw [if_pos ha]
    exact lookupFile_replace p c files ha
  · rw [if_neg ha]
    rw [lookupFile_append_nomatch p [(p, c)] files ?_]
    · simp [lookupFile]
    · intro f hf
      simp only [List.any_eq_true, decide_eq_true_eq, not_exists, not_and] at ha
      exact ha f hf

/-- C10: when the target directory does not yet exist, the loader creates
it together with every ancestor directory, writes the CSV serialization of
the table at `output_path/output_name` (overwriting whatever file was
there), the serialization starts with the comma-joined header in column
order followed by exactly one record per row and no index column, and a
repeated run creates no further directories (directory creation is
idempotent and error-free when the path exists). -/
theorem c10_loader_writes_csv (fs : FS) (df : DataFrame) (p : List String)
    (name : String) (h : pathExists fs p = false) :
    (∀ q ∈ p.inits, q ∈ (load_extraction df p name fs).dirs) ∧
    lookupFile (load_extraction df p name fs).files (p ++ [name]) =
      some (to_csv df) ∧
    to_csv df = csvLine (df.columns.map quoteIfNeeded) ++ "\n" ++
      String.join (df.rows.map (fun r => csvLine (r.map csvCell) ++ "\n")) ∧
    (load_extraction df p name (load_extraction df p name fs)).dirs =
      (load_extraction df p name fs).dirs := by
  have hdirs : (load_extraction df p name fs).dirs = fs.dirs ++ p.inits := by
    rw [load_extraction, if_neg (by rw [h]; exact Bool.false_ne_true)]
    rfl
  have hfiles : (load_extraction df p name fs).files =
      setFile (makedirs fs p).files (p ++ [name]) (to_csv df) := by
    rw [load_extraction, if_neg (by rw [h]; exact Bool.false_ne_true)]
  refine ⟨?_, ?_, rfl, ?_⟩
  · intro q hq
    rw [hdirs]
    exact List.mem_append_right _ hq
  · rw [hfiles]
    exact lookupFile_setFile _ _ _
  · have hp2 : pathExists (load_extraction df p name fs) p = true := by
      rw [pathExists]
      have : p ∈ (load_extraction df p name fs).dirs := by
        rw [hdirs]
        exact List.mem_append_right _ ((List.mem_inits p p).mpr ⟨[], by simp⟩)
      simp [this]
    rw [load_extraction, if_pos hp2]

/-- A small transformed table used to witness C10. -/
def c10df : DataFrame :=
  { columns := ["Issue Key", "Worklog Created", "Worklog Started"],
    rows := [[.str "GA-1", .str "05/03/2024 14:30:00", .str "N/A"]] }

/-- Witness for C10: loading into the nested fresh path a/b/c. -/
theorem c10_loader_writes_csv_witness :
    (∀ q ∈ (["a", "b", "c"] : List String).inits,
       q ∈ (load_extraction c10df ["a", "b", "c"] "extraction_jira.csv"
         (FS.mk [] [])).dirs) ∧
    lookupFile (load_extraction c10df ["a", "b", "c"] "extraction_jira.csv"
        (FS.mk [] [])).files (["a", "b", "c"] ++ ["extraction_jira.csv"]) =
      some (to_csv c10df) ∧
    to_csv c10df = csvLine (c10df.columns.map quoteIfNeeded) ++ "\n" ++
      String.join (c10df.rows.map (fun r => csvLine (r.map csvCell) ++ "\n")) ∧
    (load_extraction c10df ["a", "b", "c"] "extraction_jira.csv"
        (load_extraction c10df ["a", "b", "c"] "extraction_jira.csv"
          (FS.mk [] []))).dirs =
      (load_extraction c10df ["a", "b", "c"] "extraction_jira.csv"
        (FS.mk [] [])).dirs :=
  c10_loader_writes_csv (FS.mk [] []) c10df ["a", "b", "c"] "extraction_jira.csv"
    (by decide)

lemma digit_ne (c ch : Char) (h : c.isDigit = true) (h2 : ch.isDigit = false) :
    ¬ c = ch := by
  intro e
  rw [e, h2] at h
  exact Bool.false_ne_true h

lemma readNumExact_four (a b c d : Char) (r : List Char)
    (ha : a.isDigit = true) (hb : b.isDigit = true) (hc : c.isDigit = true)
    (hd : d.isDigit = true) :
    readNumExact 4 0 (a :: b :: c :: d :: r) =
      some (((dval a * 10 + dval b) * 10 + dval c) * 10 + dval d, r) := by
  simp [readNumExact, ha, hb, hc, hd]

lemma readNum_two (a b : Char) (r : List Char)
    (ha : a.isDigit = true) (hb : b.isDigit = true) :
    readNum 2 (a :: b :: r) = some (dval a * 10 + dval b, r) := by
  simp [readNum, readDigits, ha, hb]

lemma readNum_six (a b c d e f : Char) (r : List Char)
    (ha : a.isDigit = true) (hb : b.isDigit = true) (hc : c.isDigit = true)
    (hd : d.isDigit = true) (he : e.isDigit = true) (hf : f.isDigit = true) :
    readNum 6 (a :: b :: c :: d :: e :: f :: r) =
      some (((((dval a * 10 + dval b) * 10 + dval c) * 10 + dval d) * 10 + dval e)
        * 10 + dval f, r) := by
  simp [readNum, readDigits, ha, hb, hc, hd, he, hf]

lemma readDay_two (a b : Char) (r : List Char)
    (ha : a.isDigit = true) (hb : b.isDigit = true) :
    readDay (a :: b :: r) = some (dval a * 10 + dval b, r) := by
  rw [readDay]
  rw [if_neg (digit_ne a ' ' ha (by decide))]
  exact readNum_two a b r ha hb

lemma lit_eq (c : Char) (r : List Char) : lit c (c :: r) = some r := by
  simp [lit]

lemma litT_eq (r : List Char) : litT ('T' :: r) = some r := by
  simp [litT]

lemma parseZ_hhmm (pm z1 z2 z3 z4 : Char)
    (hpm : pm = '+' ∨ pm = '-')
    (hz1 : z1.isDigit = true) (hz2 : z2.isDigit = true)
    (hz3 : z3.isDigit = true) (hz4 : z4.isDigit = true)
    (hzh : dval z1 * 10 + dval z2 ≤ 23) (hzm : dval z3 ≤ 5) :
    parseZ [pm, z1, z2, z3, z4] = true := by
  have hz3c : ¬ z3 = ':' := digit_ne z3 ':' hz3 (by decide)
  rw [parseZ, parseZBody]
  simp only [Bool.or_eq_true]
  right
  simp [hz1, hz2, hz3, hz4, hz3c, zMin, zSeconds, hzh, hzm]
  rcases hpm with h | h <;> simp [h]

set_option maxHeartbeats 2000000 in
lemma parseISO_digits (y1 y2 y3 y4 m1 m2 d1 d2 g1 g2 i1 i2 e1 e2 f1 f2 f3 f4 f5 f6 pm z1 z2 z3 z4 : Char)
    (hy1 : y1.isDigit = true) (hy2 : y2.isDigit = true) (hy3 : y3.isDigit = true) (hy4 : y4.isDigit = true)
    (hm1 : m1.isDigit = true) (hm2 : m2.isDigit = true)
    (hd1 : d1.isDigit = true) (hd2 : d2.isDigit = true)
    (hg1 : g1.isDigit = true) (hg2 : g2.isDigit = true)
    (hi1 : i1.isDigit = true) (hi2 : i2.isDigit = true)
    (he1 : e1.isDigit = true) (he2 : e2.isDigit = true)
    (hf1 : f1.isDigit = true) (hf2 : f2.isDigit = true) (hf3 : f3.isDigit = true)
    (hf4 : f4.isDigit = true) (hf5 : f5.isDigit = true) (hf6 : f6.isDigit = true)
    (hpm : pm = '+' ∨ pm = '-')
    (hz1 : z1.isDigit = true) (hz2 : z2.isDigit = true) (hz3 : z3.isDigit = true) (hz4 : z4.isDigit = true)
    (hyy : 1 ≤ ((dval y1 * 10 + dval y2) * 10 + dval y3) * 10 + dval y4)
    (hmo1 : 1 ≤ dval m1 * 10 + dval m2) (hmo2 : dval m1 * 10 + dval m2 ≤ 12)
    (hdd1 : 1 ≤ dval d1 * 10 + dval d2)
    (hdd2 : dval d1 * 10 + dval d2 ≤
      daysInMonth (((dval y1 * 10 + dval y2) * 10 + dval y3) * 10 + dval y4) (dval m1 * 10 + dval m2))
    (hhh : dval g1 * 10 + dval g2 ≤ 23)
    (hmi : dval i1 * 10 + dval i2 ≤ 59)
    (hss : dval e1 * 10 + dval e2 ≤ 59)
    (hzh : dval z1 * 10 + dval z2 ≤ 23) (hzm : dval z3 ≤ 5) :
    parseISO [y1, y2, y3, y4, '-', m1, m2, '-', d1, d2, 'T', g1, g2, ':', i1, i2,
      ':', e1, e2, '.', f1, f2, f3, f4, f5, f6, pm, z1, z2, z3, z4] =
      some ⟨((dval y1 * 10 + dval y2) * 10 + dval y3) * 10 + dval y4,
            dval m1 * 10 + dval m2, dval d1 * 10 + dval d2,
            dval g1 * 10 + dval g2, dval i1 * 10 + dval i2,
            dval e1 * 10 + dval e2⟩ := by
  rw [parseISO]
  rw [readNumExact_four y1 y2 y3 y4 _ hy1 hy2 hy3 hy4]
  simp only [Option.bind_eq_bind, Option.some_bind]
  rw [lit_eq]
  simp only [Option.bind_eq_bind, Option.some_bind]
  rw [readNum_two m1 m2 _ hm1 hm2]
  simp only [Option.bind_eq_bind, Option.some_bind]
  rw [lit_eq]
  simp only [Option.bind_eq_bind, Option.some_bind]
  rw [readDay_two d1 d2 _ hd1 hd2]
  simp only [Option.bind_eq_bind, Option.some_bind]
  rw [litT_eq]
  simp only [Option.bind_eq_bind, Option.some_bind]
  rw [readNum_two g1 g2 _ hg1 hg2]
  simp only [Option.bind_eq_bind, Option.some_bind]
  rw [lit_eq]
  simp only [Option.bind_eq_bind, Option.some_bind]
  rw [readNum_two i1 i2 _ hi1 hi2]
  simp only [Option.bind_eq_bind, Option.some_bind]
  rw [lit_eq]
  simp only [Option.bind_eq_bind, Option.some_bind]
  rw [readNum_two e1 e2 _ he1 he2]
  simp only [Option.bind_eq_bind, Option.some_bind]
  rw [lit_eq]
  simp only [Option.bind_eq_bind, Option.some_bind]
  rw [readNum_six f1 f2 f3 f4 f5 f6 _ hf1 hf2 hf3 hf4 hf5 hf6]
  simp only [Option.bind_eq_bind, Option.some_bind]
  rw [parseZ_hhmm pm z1 z2 z3 z4 hpm hz1 hz2 hz3 hz4 hzh hzm]
  simp [hyy, hmo1, hmo2, hdd1, hdd2, hhh, hmi, hss]

lemma specFormat_to_reformat (s : String) (dt : DT)
    (h : specFormatParse s = some dt) :
    reformat_date (.str s) = .ok (.str (strftimeOut dt)) := by
  rw [specFormatParse] at h
  split at h
  case h_2 => exact absurd h (by simp)
  case h_1 y1 y2 y3 y4 s1 m1 m2 s2 d1 d2 t1 g1 g2 c1 i1 i2 c2 e1 e2 dot f1 f2 f3 f4 f5 f6 pm z1 z2 z3 z4 heq =>
    split at h
    case isFalse => exact absurd h (by simp)
    case isTrue hcond =>
      obtain ⟨hy1, hy2, hy3, hy4, hs1, hm1, hm2, hs2, hd1, hd2, ht1, hg1, hg2,
        hc1, hi1, hi2, hc2, he1, he2, hdot, hf1, hf2, hf3, hf4, hf5, hf6, hpm,
        hz1, hz2, hz3, hz4, hyy, hmo1, hmo2, hdd1, hdd2, hhh, hmi, hss, hzh, hzm⟩ := hcond
      subst hs1 hs2 ht1 hc1 hc2 hdot
      injection h with hdt
      subst hdt
      have hna : ¬ s = "N/A" := by
        intro e
        rw [e] at heq
        have h3 : ("N/A".toList) = ['N', '/', 'A'] := rfl
        rw [h3] at heq
        simp at heq
      rw [reformat_date, if_neg hna, strptime6, heq]
      rw [parseISO_digits y1 y2 y3 y4 m1 m2 d1 d2 g1 g2 i1 i2 e1 e2 f1 f2 f3 f4 f5 f6 pm z1 z2 z3 z4
        hy1 hy2 hy3 hy4 hm1 hm2 hd1 hd2 hg1 hg2 hi1 hi2 he1 he2 hf1 hf2 hf3 hf4 hf5 hf6 hpm
        hz1 hz2 hz3 hz4 hyy hmo1 hmo2 hdd1 hdd2 hhh hmi hss hzh hzm]

/-- C6 (counterexample): the lenient strptime accepts
`2024-3-5T14:30:00.0+0000` — one-digit month, day and fraction — which
does not match the fixed-width `YYYY-MM-DDTHH:MM:SS.ffffff±HHMM` shape and
is not the sentinel, yet `reformat_date` converts it instead of raising. -/
theorem c6_strict_format_counterexample :
    specFormatParse "2024-3-5T14:30:00.0+0000" = none ∧
    "2024-3-5T14:30:00.0+0000" ≠ "N/A" ∧
    reformat_date (.str "2024-3-5T14:30:00.0+0000") =
      .ok (.str "05/03/2024 14:30:00") :=
  ⟨by decide, by decide, by decide⟩

/-- C6 (amended): null and the literal "N/A" pass through unchanged; every
value matching the spec's source format `YYYY-MM-DDTHH:MM:SS.ffffff±HHMM`
(with in-range fields) is converted to `DD/MM/YYYY HH:MM:SS`; the round
trip example holds exactly; and every value the (lenient) strptime parser
rejects raises a parse error that propagates — but acceptance is decided
by the lenient parser, not by the fixed-width format. -/
theorem c6_reformat_date_behavior :
    (reformat_date .null = .ok .null) ∧
    (reformat_date (.str "N/A") = .ok (.str "N/A")) ∧
    (∀ s dt, specFormatParse s = some dt →
       reformat_date (.str s) = .ok (.str (strftimeOut dt))) ∧
    (reformat_date (.str "2024-03-05T14:30:00.000000+0000") =
       .ok (.str "05/03/2024 14:30:00")) ∧
    (∀ s, s ≠ "N/A" → strptime6 s = none →
       reformat_date (.str s) = .error (.parse s)) := by
  refine ⟨rfl, by decide, specFormat_to_reformat, by decide, ?_⟩
  intro s hna hp
  rw [reformat_date, if_neg hna, hp]

/-- Witness for C6's universal clause at a concrete in-format timestamp. -/
theorem c6_reformat_date_behavior_witness :
    reformat_date (.str "2025-12-31T23:59:59.999999-0300") =
      .ok (.str "31/12/2025 23:59:59") :=
  c6_reformat_date_behavior.2.2.1 "2025-12-31T23:59:59.999999-0300"
    ⟨2025, 12, 31, 23, 59, 59⟩ (by decide)
